import Mathlib

/-!
# The GUI aggregator `CGUI` (src/gui/GUI.h)

The header declares one class, `CGUI`, with one constructor

    CGUI(int ac, const char**av): guisvm(this), guihmm(this), guikernel(this),
      guiobs(this), guipreproc(this), guifeatures(this), argc(ac), argv(av) {} ;

six controller members held by value and the two members `argc`, `argv`.

The embedding keeps the storage of an object explicit: a member that has not
been initialised yet holds `none`.  The constructor is the run of its
mem-initializers, one state transformer each, in the order C++ prescribes
(the order of the member declarations).  Pointers are addresses, `none` being
the null pointer, and the memory the pointers refer to is a `World`.
-/

set_option linter.dupNamespace false

namespace Shogun

/-- A pointer value: `none` is the null pointer, `some a` the address `a`. -/
abbrev Ptr := Option Nat

/-- The six controller classes whose headers GUI.h includes (lines 5-10). -/
inductive CtrlClass
  | CGUISVM
  | CGUIHMM
  | CGUIKernel
  | CGUIObservation
  | CGUIPreProc
  | CGUIFeatures
  deriving DecidableEq, Repr

/-- Modelled from the spec: the controller classes `CGUISVM`, `CGUIHMM`,
`CGUIKernel`, `CGUIObservation`, `CGUIPreProc` and `CGUIFeatures` are declared
in the guilib headers, which are not among the sources; the spec says only that
"each sibling controller receives a reference to the aggregator".  A controller
object is therefore represented by the constructor call that built it: the
class constructed and the list of pointer arguments passed to its
constructor. -/
structure Controller where
  cls : CtrlClass
  ctorArgs : List Ptr
  deriving DecidableEq, Repr

/-- The data members of `CGUI` (GUI.h lines 19-27). -/
inductive Member
  | guisvm
  | guihmm
  | guikernel
  | guiobs
  | guipreproc
  | guifeatures
  | argc
  | argv
  deriving DecidableEq, Repr

/-- The declared class of a controller member (lines 19-24); `argc` and `argv`
are not controllers. -/
def Member.ctrlClass : Member → Option CtrlClass
  | .guisvm => some .CGUISVM
  | .guihmm => some .CGUIHMM
  | .guikernel => some .CGUIKernel
  | .guiobs => some .CGUIObservation
  | .guipreproc => some .CGUIPreProc
  | .guifeatures => some .CGUIFeatures
  | .argc => none
  | .argv => none

/-- The members in the order the class body declares them (lines 19-27). -/
def memberDecls : List Member :=
  [.guisvm, .guihmm, .guikernel, .guiobs, .guipreproc, .guifeatures, .argc, .argv]

/-- The members in the order the constructor's mem-initializer list names them
(lines 16-17). -/
def memInitializers : List Member :=
  [.guisvm, .guihmm, .guikernel, .guiobs, .guipreproc, .guifeatures, .argc, .argv]

/-- The order in which the constructor initialises the members: C++ runs the
mem-initializers in the order of the member declarations, whatever the order
in which the list is written. -/
def initOrder : List Member :=
  memberDecls.filter (fun m => decide (m ∈ memInitializers))

/-- A fully constructed `CGUI` object: the eight data members of the class,
the six controllers held by value. -/
structure CGUI where
  guisvm : Controller
  guihmm : Controller
  guikernel : Controller
  guiobs : Controller
  guipreproc : Controller
  guifeatures : Controller
  argc : Int
  argv : Ptr
  deriving DecidableEq, Repr

/-- The storage of a `CGUI` object, also while it is under construction: a
member that has not been initialised holds `none`. -/
structure Storage where
  guisvm : Option Controller
  guihmm : Option Controller
  guikernel : Option Controller
  guiobs : Option Controller
  guipreproc : Option Controller
  guifeatures : Option Controller
  argc : Option Int
  argv : Option Ptr
  deriving DecidableEq, Repr

/-- Storage in which no member has been initialised: what a constructor
starts from. -/
def Storage.raw : Storage :=
  ⟨none, none, none, none, none, none, none, none⟩

/-- Whether a member of the storage has been initialised. -/
def Storage.isInit (s : Storage) : Member → Bool
  | .guisvm => s.guisvm.isSome
  | .guihmm => s.guihmm.isSome
  | .guikernel => s.guikernel.isSome
  | .guiobs => s.guiobs.isSome
  | .guipreproc => s.guipreproc.isSome
  | .guifeatures => s.guifeatures.isSome
  | .argc => s.argc.isSome
  | .argv => s.argv.isSome

/-- The controller a controller member holds, if it has been constructed. -/
def Storage.controller (s : Storage) : Member → Option Controller
  | .guisvm => s.guisvm
  | .guihmm => s.guihmm
  | .guikernel => s.guikernel
  | .guiobs => s.guiobs
  | .guipreproc => s.guipreproc
  | .guifeatures => s.guifeatures
  | .argc => none
  | .argv => none

/-- The object a storage holds once every member has been initialised. -/
def Storage.object? (s : Storage) : Option CGUI :=
  match s.guisvm, s.guihmm, s.guikernel, s.guiobs, s.guipreproc, s.guifeatures,
    s.argc, s.argv with
  | some a, some b, some c, some d, some e, some f, some n, some p =>
      some ⟨a, b, c, d, e, f, n, p⟩
  | _, _, _, _, _, _, _, _ => none

/-- One mem-initializer of the constructor (lines 16-17), as a transformer of
the storage under construction: `guisvm(this)` constructs the member `guisvm`
from the single argument `this`, and so on; `argc(ac)` and `argv(av)` copy the
two parameters. -/
def initMember (this : Nat) (ac : Int) (av : Ptr) : Member → Storage → Storage
  | .guisvm, s => { s with guisvm := some ⟨.CGUISVM, [some this]⟩ }
  | .guihmm, s => { s with guihmm := some ⟨.CGUIHMM, [some this]⟩ }
  | .guikernel, s => { s with guikernel := some ⟨.CGUIKernel, [some this]⟩ }
  | .guiobs, s => { s with guiobs := some ⟨.CGUIObservation, [some this]⟩ }
  | .guipreproc, s => { s with guipreproc := some ⟨.CGUIPreProc, [some this]⟩ }
  | .guifeatures, s => { s with guifeatures := some ⟨.CGUIFeatures, [some this]⟩ }
  | .argc, s => { s with argc := some ac }
  | .argv, s => { s with argv := some av }

/-- Runs the mem-initializers of the listed members one after the other.  The
result is the final storage together with the log of the run: each member
initialised, paired with the storage as it was when its initializer started. -/
def runInits (this : Nat) (ac : Int) (av : Ptr) :
    List Member → Storage → List (Member × Storage) × Storage
  | [], s => ([], s)
  | m :: ms, s =>
      let r := runInits this ac av ms (initMember this ac av m s)
      ((m, s) :: r.1, r.2)

/-- The storage the constructor `CGUI(ac, av)` leaves at address `this`: all
mem-initializers run in initialisation order from raw storage; the
constructor body `{}` is empty. -/
def construct (this : Nat) (ac : Int) (av : Ptr) : Storage :=
  (runInits this ac av initOrder Storage.raw).2

/-- The log of the constructor run: for each member, in the order of
initialisation, the storage at the moment its initializer started. -/
def ctorTrace (this : Nat) (ac : Int) (av : Ptr) : List (Member × Storage) :=
  (runInits this ac av initOrder Storage.raw).1

/-- The memory the pointers of the program refer to: the `CGUI` storage at
each address, and the argument vectors (arrays of C strings) of the caller,
`none` where no vector lives. -/
structure World where
  gui : Nat → Storage
  vec : Nat → Option (List String)

/-- The constructor `CGUI::CGUI(int ac, const char**av)` (lines 16-17), run on
the storage at address `this`.  It writes that storage and nothing else. -/
def CGUI.CGUI (this : Nat) (ac : Int) (av : Ptr) (w : World) : World :=
  { w with gui := Function.update w.gui this (construct this ac av) }

/-- The object found at an address, when the storage there is fully
initialised. -/
def World.objectAt (w : World) (a : Nat) : Option CGUI :=
  (w.gui a).object?

/-- The caller replaces (or, with `none`, frees) the argument vector at an
address. -/
def World.storeVec (w : World) (a : Nat) (v : Option (List String)) : World :=
  { w with vec := Function.update w.vec a v }

/-- The argument vector seen through a pointer: nothing through the null
pointer or through an address where no vector lives. -/
def World.deref (w : World) (p : Ptr) : Option (List String) :=
  p.bind w.vec

/-- The number of entries of the vector seen through a pointer; a null or
dangling pointer shows no entry. -/
def World.entryCount (w : World) (p : Ptr) : Nat :=
  ((w.deref p).map List.length).getD 0

/-- An assignment to one of the public data members of a constructed object
(all eight members are declared under `public:`, line 14). -/
inductive Access
  | guisvm (c : Controller)
  | guihmm (c : Controller)
  | guikernel (c : Controller)
  | guiobs (c : Controller)
  | guipreproc (c : Controller)
  | guifeatures (c : Controller)
  | argc (n : Int)
  | argv (p : Ptr)
  deriving DecidableEq, Repr

/-- The effect of a member assignment on the storage. -/
def Access.apply : Access → Storage → Storage
  | .guisvm c, s => { s with guisvm := some c }
  | .guihmm c, s => { s with guihmm := some c }
  | .guikernel c, s => { s with guikernel := some c }
  | .guiobs c, s => { s with guiobs := some c }
  | .guipreproc c, s => { s with guipreproc := some c }
  | .guifeatures c, s => { s with guifeatures := some c }
  | .argc n, s => { s with argc := some n }
  | .argv p, s => { s with argv := some p }

/-- The storage after a sequence of member assignments. -/
def Storage.after (s : Storage) (accs : List Access) : Storage :=
  accs.foldl (fun t a => a.apply t) s

/-- All six controllers are present in the storage. -/
def Storage.controllersPresent (s : Storage) : Bool :=
  s.guisvm.isSome && s.guihmm.isSome && s.guikernel.isSome && s.guiobs.isSome &&
    s.guipreproc.isSome && s.guifeatures.isSome

/-- The members that are controllers, in declaration order. -/
def controllerMembers : List Member :=
  memberDecls.filter (fun m => m.ctrlClass.isSome)

/-- The argument vector seen through the `argv` member of the object at an
address. -/
def World.argvOf (w : World) (a : Nat) : Option (List String) :=
  match (w.gui a).argv with
  | some p => w.deref p
  | none => none

/-- Whether the `argc` member of the object at an address equals the number of
entries of the vector its `argv` member points to. -/
def World.argcIsArgvLength (w : World) (a : Nat) : Bool :=
  match (w.gui a).argc, (w.gui a).argv with
  | some n, some p => decide (n = (w.entryCount p : Int))
  | _, _ => false

/-- A memory holding no object and no argument vector. -/
def World.blank : World :=
  ⟨fun _ => Storage.raw, fun _ => none⟩

/-! ## Shared lemmas -/

theorem initOrder_eq :
    initOrder =
      [.guisvm, .guihmm, .guikernel, .guiobs, .guipreproc, .guifeatures, .argc, .argv] := by
  decide

theorem construct_eq (this : Nat) (ac : Int) (av : Ptr) :
    construct this ac av =
      ⟨some ⟨.CGUISVM, [some this]⟩, some ⟨.CGUIHMM, [some this]⟩,
        some ⟨.CGUIKernel, [some this]⟩, some ⟨.CGUIObservation, [some this]⟩,
        some ⟨.CGUIPreProc, [some this]⟩, some ⟨.CGUIFeatures, [some this]⟩,
        some ac, some av⟩ := by
  simp [construct, initOrder_eq, runInits, initMember, Storage.raw]

theorem CGUI_gui_this (this : Nat) (ac : Int) (av : Ptr) (w : World) :
    (CGUI.CGUI this ac av w).gui this = construct this ac av := by
  simp [CGUI.CGUI]

theorem after_controllersPresent (accs : List Access) (s : Storage)
    (h : s.controllersPresent = true) : (s.after accs).controllersPresent = true := by
  induction accs generalizing s with
  | nil => simpa [Storage.after] using h
  | cons a rest ih =>
    have step : (a.apply s).controllersPresent = true := by
      cases a <;> simp_all [Access.apply, Storage.controllersPresent]
    simpa [Storage.after] using ih (a.apply s) step

theorem ctorTrace_eq (this : Nat) (ac : Int) (av : Ptr) :
    ctorTrace this ac av =
      [(.guisvm, ⟨none, none, none, none, none, none, none, none⟩),
       (.guihmm, ⟨some ⟨.CGUISVM, [some this]⟩, none, none, none, none, none, none, none⟩),
       (.guikernel, ⟨some ⟨.CGUISVM, [some this]⟩, some ⟨.CGUIHMM, [some this]⟩, none, none,
          none, none, none, none⟩),
       (.guiobs, ⟨some ⟨.CGUISVM, [some this]⟩, some ⟨.CGUIHMM, [some this]⟩,
          some ⟨.CGUIKernel, [some this]⟩, none, none, none, none, none⟩),
       (.guipreproc, ⟨some ⟨.CGUISVM, [some this]⟩, some ⟨.CGUIHMM, [some this]⟩,
          some ⟨.CGUIKernel, [some this]⟩, some ⟨.CGUIObservation, [some this]⟩, none, none,
          none, none⟩),
       (.guifeatures, ⟨some ⟨.CGUISVM, [some this]⟩, some ⟨.CGUIHMM, [some this]⟩,
          some ⟨.CGUIKernel, [some this]⟩, some ⟨.CGUIObservation, [some this]⟩,
          some ⟨.CGUIPreProc, [some this]⟩, none, none, none⟩),
       (.argc, ⟨some ⟨.CGUISVM, [some this]⟩, some ⟨.CGUIHMM, [some this]⟩,
          some ⟨.CGUIKernel, [some this]⟩, some ⟨.CGUIObservation, [some this]⟩,
          some ⟨.CGUIPreProc, [some this]⟩, some ⟨.CGUIFeatures, [some this]⟩, none, none⟩),
       (.argv, ⟨some ⟨.CGUISVM, [some this]⟩, some ⟨.CGUIHMM, [some this]⟩,
          some ⟨.CGUIKernel, [some this]⟩, some ⟨.CGUIObservation, [some this]⟩,
          some ⟨.CGUIPreProc, [some this]⟩, some ⟨.CGUIFeatures, [some this]⟩, some ac,
          none⟩)] := by
  simp [ctorTrace, initOrder_eq, runInits, initMember, Storage.raw]

/-! ## The claims -/

/-- C1: for every argument count `ac` (any integer, zero and negative ones
included) and every argument vector pointer `av` (the null pointer included),
the object the constructor `CGUI(ac, av)` builds at `this` stores `ac` in
`argc` and `av` in `argv`, unchanged. -/
theorem CGUI_stores_arguments (this : Nat) (ac : Int) (av : Ptr) (w : World) :
    ((CGUI.CGUI this ac av w).gui this).argc = some ac ∧
      ((CGUI.CGUI this ac av w).gui this).argv = some av ∧
      ∃ g : CGUI, (CGUI.CGUI this ac av w).objectAt this = some g ∧
        g.argc = ac ∧ g.argv = av := by
  simp [World.objectAt, CGUI_gui_this, construct_eq, Storage.object?]

/-- C2: after `CGUI(ac, av)` all six controllers are initialised, each member
holding a controller of its declared class, and they stay present in every
state reached from the constructed object by assignments to its public
members. -/
theorem CGUI_controllers_present (this : Nat) (ac : Int) (av : Ptr) (w : World) :
    ((CGUI.CGUI this ac av w).gui this).controllersPresent = true ∧
      (∀ m cls, m.ctrlClass = some cls →
        ∃ c, ((CGUI.CGUI this ac av w).gui this).controller m = some c ∧ c.cls = cls) ∧
      ∀ accs : List Access,
        (((CGUI.CGUI this ac av w).gui this).after accs).controllersPresent = true ∧
          ∀ m, m.ctrlClass.isSome = true →
            ((((CGUI.CGUI this ac av w).gui this).after accs).controller m).isSome = true := by
  have h0 : ((CGUI.CGUI this ac av w).gui this).controllersPresent = true := by
    simp [CGUI_gui_this, construct_eq, Storage.controllersPresent]
  refine ⟨h0, ?_, ?_⟩
  · intro m cls hm
    cases m <;>
      simp_all [Member.ctrlClass, CGUI_gui_this, construct_eq, Storage.controller]
  · intro accs
    have h := after_controllersPresent accs _ h0
    refine ⟨h, ?_⟩
    intro m hm
    cases m <;>
      simp_all [Member.ctrlClass, Storage.controllersPresent, Storage.controller]

/-- C3: in `CGUI(ac, av)` each of the six controllers is constructed from
exactly one argument, the same for all six: the non-null address `this` of the
aggregator under construction, whose storage is the one that holds them; no
controller receives the address of another aggregator. -/
theorem CGUI_back_reference (this : Nat) (ac : Int) (av : Ptr) (w : World) :
    (∀ m cls, m.ctrlClass = some cls →
        ((CGUI.CGUI this ac av w).gui this).controller m = some ⟨cls, [some this]⟩) ∧
      (∀ m c, ((CGUI.CGUI this ac av w).gui this).controller m = some c →
        c.ctorArgs.length = 1 ∧ c.ctorArgs ≠ [none] ∧
          (∀ a, c.ctorArgs = [some a] →
            a = this ∧ ((CGUI.CGUI this ac av w).gui a).controller m = some c) ∧
          ∀ a, a ≠ this → c.ctorArgs ≠ [some a]) ∧
      ∀ m m' c c', ((CGUI.CGUI this ac av w).gui this).controller m = some c →
        ((CGUI.CGUI this ac av w).gui this).controller m' = some c' →
        c.ctorArgs = c'.ctorArgs := by
  refine ⟨?_, ?_, ?_⟩
  · intro m cls hm
    cases m <;>
      simp_all [Member.ctrlClass, CGUI_gui_this, construct_eq, Storage.controller]
  · intro m c hc
    have hargs : c.ctorArgs = [some this] := by
      cases m <;>
        simp_all [CGUI_gui_this, construct_eq, Storage.controller] <;>
        subst hc <;> rfl
    refine ⟨by simp [hargs], by simp [hargs], ?_, ?_⟩
    · intro a ha
      have hat : a = this := by
        rw [hargs] at ha
        simpa using ha.symm
      subst hat
      exact ⟨rfl, hc⟩
    · intro a hne ha
      rw [hargs] at ha
      exact hne (by simpa using ha.symm)
  · intro m m' c c' hc hc'
    cases m <;> cases m' <;>
      simp_all [CGUI_gui_this, construct_eq, Storage.controller] <;>
      subst hc <;> subst hc' <;> rfl

/-- C4: constructing the aggregator cannot fail: for every `ac` and `av` the
constructor leaves a fully initialised object at `this`, and whether it does
so does not depend on `ac` or `av`. -/
theorem CGUI_never_fails (this : Nat) (ac : Int) (av : Ptr) (w : World) :
    (CGUI.CGUI this ac av w).objectAt this =
        some ⟨⟨.CGUISVM, [some this]⟩, ⟨.CGUIHMM, [some this]⟩, ⟨.CGUIKernel, [some this]⟩,
          ⟨.CGUIObservation, [some this]⟩, ⟨.CGUIPreProc, [some this]⟩,
          ⟨.CGUIFeatures, [some this]⟩, ac, av⟩ ∧
      (∀ m, ((CGUI.CGUI this ac av w).gui this).isInit m = true) ∧
      ∀ (ac' : Int) (av' : Ptr) (w' : World),
        ((CGUI.CGUI this ac' av' w').objectAt this).isSome = true := by
  refine ⟨?_, ?_, ?_⟩
  · simp [World.objectAt, CGUI_gui_this, construct_eq, Storage.object?]
  · intro m
    cases m <;> simp [CGUI_gui_this, construct_eq, Storage.isInit]
  · intro ac' av' w'
    simp [World.objectAt, CGUI_gui_this, construct_eq, Storage.object?]

/-- C5: the constructor stores the caller's pointer `av` itself and leaves the
caller's argument vectors alone: the vectors in memory after construction are
those before, the constructed object does not depend on what the vectors
hold, every other object is untouched, and a vector the caller changes later
is seen through the stored `argv` exactly as through `av`. -/
theorem CGUI_argv_by_reference (this : Nat) (ac : Int) (av : Ptr) (w : World) :
    ((CGUI.CGUI this ac av w).gui this).argv = some av ∧
      (CGUI.CGUI this ac av w).vec = w.vec ∧
      (∀ p, (CGUI.CGUI this ac av w).deref p = w.deref p) ∧
      (∀ w' : World, (CGUI.CGUI this ac av w').gui this = (CGUI.CGUI this ac av w).gui this) ∧
      (∀ a, a ≠ this → (CGUI.CGUI this ac av w).gui a = w.gui a) ∧
      (∀ a v, ((CGUI.CGUI this ac av w).storeVec a v).argvOf this =
        ((CGUI.CGUI this ac av w).storeVec a v).deref av) ∧
      ∀ a v, ((CGUI.CGUI this ac (some a) w).storeVec a v).argvOf this = v := by
  refine ⟨?_, rfl, fun _ => rfl, ?_, ?_, ?_, ?_⟩
  · simp [CGUI_gui_this, construct_eq]
  · intro w'
    simp [CGUI_gui_this]
  · intro a ha
    simp [CGUI.CGUI, Function.update, ha]
  · intro a v
    have h : (((CGUI.CGUI this ac av w).storeVec a v).gui this).argv = some av := by
      show ((CGUI.CGUI this ac av w).gui this).argv = some av
      simp [CGUI_gui_this, construct_eq]
    rw [World.argvOf, h]
  · intro a v
    have h : (((CGUI.CGUI this ac (some a) w).storeVec a v).gui this).argv = some (some a) := by
      show ((CGUI.CGUI this ac (some a) w).gui this).argv = some (some a)
      simp [CGUI_gui_this, construct_eq]
    rw [World.argvOf, h]
    simp [World.deref, World.storeVec]

/-- C6: the constructor `CGUI(ac, av)` initialises the members in the order
guisvm, guihmm, guikernel, guiobs, guipreproc, guifeatures, argc, argv, which
is both the declaration order and the order of the mem-initializer list.  The
run starts from raw storage, each logged state is the previous one after the
previous member's initializer, and the storage the constructor leaves at
`this` is the last logged state after `argv(av)`.  At every step the members
initialised so far are exactly those earlier in the order, each holding what
its initializer writes; so when a controller is constructed `argc` and `argv`
are unassigned and no later controller exists, `argc(ac)` runs with `argc`
and `argv` unassigned, and `argv(av)` runs with `argc = ac` already stored. -/
theorem CGUI_init_order (this : Nat) (ac : Int) (av : Ptr) (w : World) :
    initOrder =
        [.guisvm, .guihmm, .guikernel, .guiobs, .guipreproc, .guifeatures, .argc, .argv] ∧
      initOrder = memberDecls ∧ memberDecls = memInitializers ∧
      (ctorTrace this ac av).map Prod.fst = initOrder ∧
      (ctorTrace this ac av).length = 8 ∧
      (ctorTrace this ac av)[0]? = some (.guisvm, Storage.raw) ∧
      (∀ i m s m' s', (ctorTrace this ac av)[i]? = some (m, s) →
        (ctorTrace this ac av)[i + 1]? = some (m', s') → s' = initMember this ac av m s) ∧
      (∃ s, (ctorTrace this ac av).getLast? = some (.argv, s) ∧
        s.argc = some ac ∧ s.argv = none ∧
        construct this ac av = initMember this ac av .argv s ∧
        (CGUI.CGUI this ac av w).gui this = initMember this ac av .argv s) ∧
      ∀ i m s, (ctorTrace this ac av)[i]? = some (m, s) →
        initOrder[i]? = some m ∧
          (∀ m', s.isInit m' = decide (m' ∈ initOrder.take i)) ∧
          (∀ m', s.isInit m' = true → initMember this ac av m' s = s) ∧
          (∀ j m', i ≤ j → initOrder[j]? = some m' → s.isInit m' = false) ∧
          (∀ j m', j < i → initOrder[j]? = some m' → s.isInit m' = true) ∧
          (initMember this ac av m s).isInit m = true ∧
          (m.ctrlClass.isSome = true → s.argc = none ∧ s.argv = none) ∧
          (m = .argc → s.argc = none ∧ s.argv = none ∧ s.controllersPresent = true) ∧
          (m = .argv → s.argc = some ac ∧ s.argv = none ∧ s.controllersPresent = true) := by
  refine ⟨initOrder_eq, by decide, by decide, ?_, ?_, ?_, ?_, ?_, ?_⟩
  · simp [ctorTrace_eq, initOrder_eq]
  · simp [ctorTrace_eq]
  · simp [ctorTrace_eq, Storage.raw]
  · intro i m s m' s' hi hnext
    rw [ctorTrace_eq] at hi hnext
    rcases i with _ | _ | _ | _ | _ | _ | _ | _ | i
    all_goals simp at hi
    all_goals obtain ⟨rfl, rfl⟩ := hi
    all_goals simp at hnext
    all_goals obtain ⟨rfl, rfl⟩ := hnext
    all_goals rfl
  · refine ⟨⟨some ⟨.CGUISVM, [some this]⟩, some ⟨.CGUIHMM, [some this]⟩,
      some ⟨.CGUIKernel, [some this]⟩, some ⟨.CGUIObservation, [some this]⟩,
      some ⟨.CGUIPreProc, [some this]⟩, some ⟨.CGUIFeatures, [some this]⟩, some ac, none⟩,
      ?_, rfl, rfl, ?_, ?_⟩
    · simp [ctorTrace_eq]
    · simp [construct_eq, initMember]
    · simp [CGUI_gui_this, construct_eq, initMember]
  · intro i m s hi
    rw [ctorTrace_eq] at hi
    rw [initOrder_eq]
    rcases i with _ | _ | _ | _ | _ | _ | _ | _ | i
    all_goals simp at hi
    all_goals obtain ⟨rfl, rfl⟩ := hi
    all_goals
      refine ⟨by simp, ?_, ?_, ?_, ?_, rfl, ?_, ?_, ?_⟩
      · intro m'
        cases m' <;> simp [Storage.isInit]
      · intro m' hm'
        cases m' <;> simp [Storage.isInit] at hm' <;> rfl
      · intro j m' hj hget
        rcases j with _ | _ | _ | _ | _ | _ | _ | _ | j
        all_goals simp at hj
        all_goals simp at hget
        all_goals subst hget
        all_goals rfl
      · intro j m' hj hget
        rcases j with _ | _ | _ | _ | _ | _ | _ | _ | j
        all_goals simp at hj
        all_goals simp at hget
        all_goals subst hget
        all_goals rfl
      · simp [Member.ctrlClass]
      · simp [Storage.controllersPresent]
      · simp [Storage.controllersPresent]

/-- C7: the constructor enforces no relation between the stored `argc` and the
stored `argv`: it accepts `ac = -1` and `ac = 5` with an empty vector and with
a null `av`, and then `argc` is not the number of entries of `argv`; so that
equality is no invariant of constructed objects (though it holds for some
inputs, such as `ac = 2` with a vector of two entries). -/
theorem CGUI_argc_unrelated_to_argv :
    (CGUI.CGUI 0 (-1) (some 1) (World.blank.storeVec 1 (some []))).argcIsArgvLength 0 = false ∧
      (CGUI.CGUI 0 5 (some 1) (World.blank.storeVec 1 (some []))).argcIsArgvLength 0 = false ∧
      (CGUI.CGUI 0 (-1) none World.blank).argcIsArgvLength 0 = false ∧
      (CGUI.CGUI 0 5 none World.blank).argcIsArgvLength 0 = false ∧
      ((CGUI.CGUI 0 5 none World.blank).gui 0).argc = some 5 ∧
      ((CGUI.CGUI 0 5 none World.blank).gui 0).argv = some none ∧
      (CGUI.CGUI 0 5 none World.blank).entryCount none = 0 ∧
      ((CGUI.CGUI 0 5 none World.blank).objectAt 0).isSome = true ∧
      (CGUI.CGUI 0 2 (some 1)
        (World.blank.storeVec 1 (some ["shogun", "-i"]))).argcIsArgvLength 0 = true ∧
      ¬ ∀ (this : Nat) (ac : Int) (av : Ptr) (w : World),
        (CGUI.CGUI this ac av w).argcIsArgvLength this = true := by
  refine ⟨by decide, by decide, by decide, by decide, by decide, by decide, by decide,
    by decide, by decide, ?_⟩
  intro h
  exact absurd (h 0 5 none World.blank) (by decide)

end Shogun
